import Mathlib

/-!
Verification of the dyndesign class-builder core (Python) against its
natural-language specification, via a shallow embedding in Lean 4.

Classes are identified by natural numbers (`ClassId`); Python values that
appear in build options and constructor arguments are modelled by `PyVal`;
Python dictionaries are modelled as insertion-ordered association lists with
first-occurrence lookup, in-place overwrite and key removal, matching CPython
dict semantics.
-/

namespace DynDesign

abbrev ClassId := Nat

/-- The id standing for Python's `object` class, the implicit sole base of a
class declared with no explicit bases. -/
def objectClassId : ClassId := 0

/-- Python values appearing in build options and constructor arguments. -/
inductive PyVal where
  | vnone : PyVal
  | vbool : Bool → PyVal
  | vstr : String → PyVal
  | vnat : Nat → PyVal
  deriving DecidableEq, Repr

/-- Python truthiness of a `PyVal` (`bool(v)`). -/
def PyVal.truthy : PyVal → Bool
  | .vnone => false
  | .vbool b => b
  | .vstr s => s ≠ ""
  | .vnat n => n ≠ 0

/-- Python `str(v)`, as used to form compound switch keys. -/
def PyVal.toPyStr : PyVal → String
  | .vnone => "None"
  | .vbool true => "True"
  | .vbool false => "False"
  | .vstr s => s
  | .vnat n => toString n

/-- Insertion-ordered dictionary lookup (first matching key). -/
def dictGet {α : Type} (d : List (String × α)) (k : String) : Option α :=
  match d with
  | [] => none
  | (k0, v0) :: rest => if k0 = k then some v0 else dictGet rest k

/-- Dictionary write `d[k] = v`: overwrite in place if the key exists,
append at the end otherwise (CPython dict semantics). -/
def dictSet {α : Type} (d : List (String × α)) (k : String) (v : α) :
    List (String × α) :=
  match d with
  | [] => [(k, v)]
  | (k0, v0) :: rest => if k0 = k then (k, v) :: rest else (k0, v0) :: dictSet rest k v

/-- Dictionary removal `d.pop(k)` (removes the first occurrence of the key). -/
def dictPop {α : Type} (d : List (String × α)) (k : String) : List (String × α) :=
  match d with
  | [] => []
  | (k0, v0) :: rest => if k0 = k then rest else (k0, v0) :: dictPop rest k

/-- Membership of a key in a dictionary. -/
def dictHasKey {α : Type} (d : List (String × α)) (k : String) : Bool :=
  (dictGet d k).isSome

abbrev Options := List (String × PyVal)

/-!
## Argument Adapter (`dyndesign/utils/signature.py`)

`FuncSpec` embeds the result of `inspect.getfullargspec` on the target
callable: the named positional parameters (including `self`), whether a
variadic positional (`*args`) or variadic keyword (`**kwargs`) parameter is
declared, the names of keyword-only parameters that carry defaults
(`kwonlydefaults`), and how many trailing positional parameters have
defaults.
-/

structure FuncSpec where
  args : List String
  varargs : Bool := false
  varkw : Bool := false
  kwonlydefaults : List String := []
  numdefaults : Nat := 0
  deriving DecidableEq, Repr

/-- The loop body of `adapt_arguments`: for each formal positional parameter,
take a matching keyword argument (deleting it from `kwargs`) if present, else
pop the next positional argument from the queue; parameters with neither are
skipped.  Mirrors the `for func_arg in func_args` loop with the mutable
`res_args` accumulator and `arg_deque`. -/
def adaptPositionalLoop (funcArgs : List String) (argDeque : List PyVal)
    (kwargs : List (String × PyVal)) (resArgs : List PyVal) :
    List PyVal × List (String × PyVal) :=
  match funcArgs with
  | [] => (resArgs, kwargs)
  | fa :: rest =>
    match dictGet kwargs fa with
    | some v => adaptPositionalLoop rest argDeque (dictPop kwargs fa) (resArgs ++ [v])
    | none =>
      match argDeque with
      | [] => adaptPositionalLoop rest [] kwargs resArgs
      | a :: aq => adaptPositionalLoop rest aq kwargs (resArgs ++ [a])

/-- Embedding of `adapt_arguments(func, *args, **kwargs)`: filter `args` and
`kwargs` down to what the target accepts.  The first formal parameter
(`self`) is skipped, as in the source (`init_specs.args[1:]`). -/
def adapt_arguments (func : FuncSpec) (args : List PyVal)
    (kwargs : List (String × PyVal)) : List PyVal × List (String × PyVal) :=
  let first :=
    if func.varargs then (args, kwargs)
    else adaptPositionalLoop (func.args.drop 1) args kwargs []
  let resKwargs :=
    if func.varkw then first.2
    else first.2.filter (fun kv => func.kwonlydefaults.contains kv.1)
  (first.1, resKwargs)

/-!
Spec-side reformulation of the positional-fill contract, written from the
words of the specification ("positional parameters are filled first from
matching keyword arguments (removed from kwargs) then from the positional
queue in order"); used to state the refinement theorem for claim C7.
-/

/-- Positional values obtained per the specification's wording. -/
def claimFill (params : List String) (kwargs : List (String × PyVal))
    (queue : List PyVal) : List PyVal :=
  match params with
  | [] => []
  | p :: rest =>
    match dictGet kwargs p with
    | some v => v :: claimFill rest (dictPop kwargs p) queue
    | none =>
      match queue with
      | [] => claimFill rest kwargs []
      | a :: q => a :: claimFill rest kwargs q

/-- Keyword arguments remaining after the positional fill, per the
specification's wording (those consumed for positional parameters are
removed). -/
def claimRemaining (params : List String) (kwargs : List (String × PyVal))
    (queue : List PyVal) : List (String × PyVal) :=
  match params with
  | [] => kwargs
  | p :: rest =>
    match dictGet kwargs p with
    | some _ => claimRemaining rest (dictPop kwargs p) queue
    | none =>
      match queue with
      | [] => claimRemaining rest kwargs []
      | _ :: q => claimRemaining rest kwargs q

theorem adaptPositionalLoop_eq (params : List String) (queue : List PyVal)
    (kwargs : List (String × PyVal)) (acc : List PyVal) :
    adaptPositionalLoop params queue kwargs acc =
      (acc ++ claimFill params kwargs queue, claimRemaining params kwargs queue) := by
  induction params generalizing queue kwargs acc with
  | nil => simp [adaptPositionalLoop, claimFill, claimRemaining]
  | cons p rest ih =>
    cases h : dictGet kwargs p with
    | some v =>
      simp [adaptPositionalLoop, claimFill, claimRemaining, h, ih]
    | none =>
      cases queue with
      | nil => simp [adaptPositionalLoop, claimFill, claimRemaining, h, ih]
      | cons a q => simp [adaptPositionalLoop, claimFill, claimRemaining, h, ih]

/-!
## Constructor invocation (`call_obj_with_adapted_args`)

A Python `TypeError: C.__init__() missing n required positional arguments`
arises exactly when the call supplies fewer positional values than the
target's required positional parameters; `__is_missing_arguments_exception`
recognises precisely that error.  `PyInstance` records the constructor call
that produced an instance.
-/

inductive BuildError where
  | missingPositionalArgs : BuildError
  | classConfigMissingDependency : BuildError
  | classConfigDependencyOverflow : BuildError
  | classConfigMissingComponentAttr : BuildError
  | classConfigMissingComponentInjectionMethod : BuildError
  | structuredTypeError : BuildError
  | dynConfigWrongClassType : BuildError
  | pyAttributeError : BuildError
  | pyTypeError : BuildError
  deriving DecidableEq, Repr

structure PyInstance where
  cls : ClassId
  initArgs : List PyVal
  initKwargs : List (String × PyVal)
  deriving DecidableEq, Repr

/-- Required positional parameter count of a constructor: the named positional
parameters after `self`, minus those carrying defaults. -/
def requiredPositional (f : FuncSpec) : Nat :=
  (f.args.drop 1).length - f.numdefaults

/-- Invoking `cls(*args, **kwargs)` with already-adapted arguments: raises the
missing-positional-arguments `TypeError` when too few positional values are
supplied, otherwise creates the instance. -/
def invokeConstructor (c : ClassId) (f : FuncSpec) (args : List PyVal)
    (kwargs : List (String × PyVal)) : Except BuildError PyInstance :=
  if args.length < requiredPositional f then .error .missingPositionalArgs
  else .ok ⟨c, args, kwargs⟩

/-- Embedding of `call_obj_with_adapted_args` on a class target (`obj=None`):
adapt the arguments, invoke the constructor; on the missing-positional
`TypeError`, re-raise in strict mode and swallow (yielding `none`) in lenient
mode. -/
def call_obj_with_adapted_args (c : ClassId) (f : FuncSpec) (args : List PyVal)
    (strictMissingArgs : Bool) (kwargs : List (String × PyVal)) :
    Except BuildError (Option PyInstance) :=
  let adapted := adapt_arguments f args kwargs
  match invokeConstructor c f adapted.1 adapted.2 with
  | .ok inst => .ok (some inst)
  | .error e => if strictMissingArgs then .error e else .ok none

/-!
## ClassConfig and its validation
(`classbuilder/class_builder_config.py`, `classbuilder/exposed_class_config.py`,
`classbuilder/dependency_configuration.py`)
-/

/-- A supertype reference as accepted by `inherit_from`: a single class or a
tuple of classes. -/
inductive ParentRef where
  | single : ClassId → ParentRef
  | tup : List ClassId → ParentRef
  deriving DecidableEq, Repr

/-- Python truthiness of an `inherit_from` value (`None` and the empty tuple
are falsy). -/
def inheritFromTruthy : Option ParentRef → Bool
  | none => false
  | some (.single _) => true
  | some (.tup l) => l ≠ []

/-- Kind of a `structured_component_type`: a list-like container (has
`append`) or a dict-like container (has `__setitem__`). -/
inductive StructKind where
  | listLike : StructKind
  | dictLike : StructKind
  deriving DecidableEq, Repr

/-- Embedding of the `ClassConfig` dataclass fields. -/
structure ClassConfig where
  default_class : Option ClassId := none
  component_attr : Option String := none
  injection_method : Option String := none
  add_components_after_method : Option Bool := none
  force_add : Option Bool := none
  structured_component_type : Option StructKind := none
  structured_component_key : Option String := none
  init_args_from_option : Option Bool := none
  init_args_from_self : List String := []
  init_kwargs_from_self : List (String × String) := []
  init_args_keep_first : Option Nat := none
  strict_missing_args : Option Bool := none
  inherit_from : Option ParentRef := none
  component_class : Option ClassId := none
  deriving DecidableEq, Repr

/-- Embedding of `DependencyConfiguration.validate_class_config` (the same
checks appear in `ClassConfig.__post_init__`): a record must set exactly one
of `inherit_from` and `component_class`. -/
def validate_class_config (cfg : ClassConfig) : Except BuildError Unit :=
  if ¬ inheritFromTruthy cfg.inherit_from ∧ cfg.component_class = none then
    .error .classConfigMissingDependency
  else if inheritFromTruthy cfg.inherit_from ∧ cfg.component_class ≠ none then
    .error .classConfigDependencyOverflow
  else .ok ()

/-- Embedding of a `DependencyConfiguration` instance: the validated
`ClassConfig` attributes plus the mutable `selected_option`, `must_be_added`
and `is_option_selected` slots. -/
structure DependencyConfiguration where
  attrs : ClassConfig
  selected_option : PyVal := .vnone
  must_be_added : Bool := false
  is_option_selected : Option Bool := none
  deriving DecidableEq, Repr

/-- Embedding of `DependencyConfiguration.__init__`: validates the user
configuration first (fail-fast), then stores its attributes. -/
def mkDependencyConfiguration (cfg : ClassConfig) :
    Except BuildError DependencyConfiguration := do
  let _ ← validate_class_config cfg
  .ok { attrs := cfg }

/-- Embedding of `DependencyConfiguration.setup`. -/
def DependencyConfiguration.setup (dc : DependencyConfiguration)
    (selectedOption : PyVal) (forceAdd : Bool) : DependencyConfiguration :=
  { dc with selected_option := selectedOption,
            must_be_added := selectedOption.truthy || forceAdd }

/-!
## Class storage and recursive configuration of dependent classes
(`classbuilder/class_storage.py`, `ClassBuilder.__configure_dependent_class`)
-/

/-- The per-process environment a build runs in: the recursion flag, the keys
of `ClassStorage.config_map` (registered base classes), and the keys of
`ClassStorage.classes_built` (classes produced by the engine). -/
structure BuildEnv where
  buildRecursively : Bool
  configMapKeys : List ClassId := []
  classesBuilt : List ClassId := []
  deriving DecidableEq, Repr

/-- Embedding of `ClassStorage.is_already_built`: true when the class was
produced by the engine or is not registered at all. -/
def is_already_built (env : BuildEnv) (c : ClassId) : Bool :=
  env.classesBuilt.contains c || ¬ env.configMapKeys.contains c

/-- Outcome of `ClassBuilder.__configure_dependent_class` on an
already-resolved class: either the class is returned unchanged, or it is
recursively built through its own registered builder with the same options. -/
inductive DependentResult where
  | unchanged : ClassId → DependentResult
  | recursiveBuild : ClassId → Options → DependentResult
  deriving DecidableEq, Repr

/-- Embedding of `ClassBuilder.__configure_dependent_class` after type
resolution: recursion happens unless it is disabled, the class is the base
class itself, or `is_already_built` holds. -/
def configure_dependent_class (env : BuildEnv) (base : ClassId)
    (options : Options) (c : ClassId) : DependentResult :=
  if ¬ env.buildRecursively ∨ c = base ∨ is_already_built env c then
    .unchanged c
  else
    .recursiveBuild c options

/-- The class a `DependentResult` originated from (both branches carry it). -/
def DependentResult.sourceClass : DependentResult → ClassId
  | .unchanged c => c
  | .recursiveBuild c _ => c

/-!
## Parent Composer (`classbuilder/parent_class_builder.py`)
-/

/-- Embedding of `ParentClassBuilder.__init__`: the accumulated parent list
starts with the base class, followed by its statically declared bases when
those are not just `(object,)`. -/
def parentClassBuilderInit (base : ClassId) (baseBases : List ClassId) :
    List ClassId :=
  base :: (if baseBases = [objectClassId] then [] else baseBases)

/-- Embedding of `ParentClassBuilder.select_parent_classes`: append a single
parent, or all members of a tuple, to the accumulated list. -/
def select_parent_classes (parents : List ClassId) (ref : ParentRef) :
    List ClassId :=
  match ref with
  | .single c => parents ++ [c]
  | .tup cs => parents ++ cs

/-- The accumulated parent list after all dynamic selections, in evaluation
order. -/
def selectedParentList (base : ClassId) (baseBases : List ClassId)
    (dynRefs : List ParentRef) : List ClassId :=
  dynRefs.foldl select_parent_classes (parentClassBuilderInit base baseBases)

/-- Flattening of a list of parent references (tuples contribute all their
members in order). -/
def flattenRefs (refs : List ParentRef) : List ClassId :=
  match refs with
  | [] => []
  | .single c :: rest => c :: flattenRefs rest
  | .tup cs :: rest => cs ++ flattenRefs rest

/-- Embedding of `ParentClassBuilder.configure_parent_classes` followed by
the `type(...)` call in `ClassBuilder.configure_class`: each accumulated
parent is passed through `__configure_dependent_class`, and the resulting
tuple is handed to the type-instantiation primitive in that same order. -/
def configuredParentTuple (env : BuildEnv) (base : ClassId) (options : Options)
    (baseBases : List ClassId) (dynRefs : List ParentRef) :
    List DependentResult :=
  (selectedParentList base baseBases dynRefs).map
    (configure_dependent_class env base options)

/-- Python attribute resolution over a bases tuple of pairwise-unrelated
parent classes: the first class in the tuple that defines the attribute
provides it (CPython method resolution order for such a tuple is the tuple
order itself). -/
def mroFirstDefiner (defines : ClassId → String → Bool)
    (bases : List ClassId) (attr : String) : Option ClassId :=
  bases.find? (fun c => defines c attr)

theorem selectedParentList_eq (base : ClassId) (baseBases : List ClassId)
    (dynRefs : List ParentRef) :
    selectedParentList base baseBases dynRefs =
      parentClassBuilderInit base baseBases ++ flattenRefs dynRefs := by
  have h : ∀ (refs : List ParentRef) (acc : List ClassId),
      refs.foldl select_parent_classes acc = acc ++ flattenRefs refs := by
    intro refs
    induction refs with
    | nil => intro acc; simp [flattenRefs]
    | cons r rest ih =>
      intro acc
      cases r with
      | single c => simp [select_parent_classes, flattenRefs, ih]
      | tup cs => simp [select_parent_classes, flattenRefs, ih]
  exact h dynRefs _

theorem configuredParentTuple_sourceClasses (env : BuildEnv) (base : ClassId)
    (options : Options) (baseBases : List ClassId) (dynRefs : List ParentRef) :
    (configuredParentTuple env base options baseBases dynRefs).map
        DependentResult.sourceClass =
      parentClassBuilderInit base baseBases ++ flattenRefs dynRefs := by
  have hsrc : ∀ c, (configure_dependent_class env base options c).sourceClass = c := by
    intro c
    unfold configure_dependent_class
    split <;> rfl
  simp only [configuredParentTuple, List.map_map, Function.comp_def, hsrc,
    List.map_id_fun, selectedParentList_eq, id]
  simp [hsrc]

/-!
## Configuration Normalizer (`classbuilder/class_configuration_manager.py`,
`classbuilder/class_configuration_unit.py`)
-/

def SWITCH_KEY_SEPARATOR : String := "_#=_"

def SWITCH_DEFAULT : String := "_#!_SWITCH_DEFAULT"

/-- Embedding of `ClassConfigurationManager.__get_switch_key`. -/
def get_switch_key (key : String) (optionValue : String) : String :=
  key ++ SWITCH_KEY_SEPARATOR ++ optionValue

/-- Python `bool(x)` for an optional boolean attribute (`None` is falsy). -/
def pyBoolOpt (o : Option Bool) : Bool := o.getD false

/-- Python truthiness of an optional string (`None` and `""` are falsy). -/
def strTruthy : Option String → Bool
  | none => false
  | some s => s ≠ ""

/-- Python `str()` of an optional string attribute (`str(None)` is `"None"`),
as used by `validate_component_configuration`. -/
def strOfOpt : Option String → String
  | none => "None"
  | some s => s

/-- A value of a configuration-dictionary entry: a single
`DependencyConfiguration`, a tuple of them, or a still-unexpanded switch
table mapping case values (stringified) to configurations. -/
inductive ConfigNode where
  | conf : DependencyConfiguration → ConfigNode
  | confs : List DependencyConfiguration → ConfigNode
  | switchTable : List (String × DependencyConfiguration) → ConfigNode
  deriving DecidableEq, Repr

abbrev ClassConfigDict := List (String × ConfigNode)

/-- One element produced by `tuplefy(config_nodes)`: either a dependency
record or a switch table. -/
inductive ConfigAtom where
  | dep : DependencyConfiguration → ConfigAtom
  | sw : List (String × DependencyConfiguration) → ConfigAtom
  deriving DecidableEq, Repr

/-- Embedding of `tuplefy` applied to a configuration node: a tuple yields
its members, anything else is wrapped as a one-element tuple. -/
def tuplefyNode : ConfigNode → List ConfigAtom
  | .conf c => [.dep c]
  | .confs cs => cs.map .dep
  | .switchTable t => [.sw t]

/-- Set-style insertion for the `__default_switches` set (insertion order
retained for determinism). -/
def addToStringSet (l : List String) (k : String) : List String :=
  if l.contains k then l else l ++ [k]

/-- Processing of one `(option_key, config)` case of a switch table inside
`__transform_switches`: the default case overwrites the original key and
records it in `__default_switches`; every other case is stored under the
compound switch key. -/
def transformSwitchCase (depKey : String)
    (st : ClassConfigDict × List String)
    (c : String × DependencyConfiguration) : ClassConfigDict × List String :=
  if c.1 = SWITCH_DEFAULT then
    (dictSet st.1 depKey (.conf c.2), addToStringSet st.2 depKey)
  else
    (dictSet st.1 (get_switch_key depKey c.1) (.conf c.2), st.2)

/-- Processing of one configuration atom inside `__transform_switches`: only
switch tables are rewritten; afterwards the original key is dropped unless
the default case replaced it with a plain `DependencyConfiguration`. -/
def transformSwitchesAtom (depKey : String)
    (st : ClassConfigDict × List String) (a : ConfigAtom) :
    ClassConfigDict × List String :=
  match a with
  | .dep _ => st
  | .sw cases =>
    let st2 := cases.foldl (transformSwitchCase depKey) st
    match dictGet st2.1 depKey with
    | some (.conf _) => st2
    | _ => (dictPop st2.1 depKey, st2.2)

/-- Embedding of `ClassConfigurationManager.__transform_switches`: iterate
over a snapshot of the configuration items while mutating the live
dictionary, expanding every switch table into compound boolean keys plus the
recorded defaults. -/
def transform_switches (config : ClassConfigDict) (defaultSwitches : List String) :
    ClassConfigDict × List String :=
  config.foldl
    (fun st entry => (tuplefyNode entry.2).foldl (transformSwitchesAtom entry.1) st)
    (config, defaultSwitches)

/-- Embedding of `ClassConfigurationManager.transform_options`: for each
supplied option (iterating a snapshot), if its compound switch key exists in
the transformed configuration, set that compound key to `True` and remove the
original entry; finally set every recorded default switch that was not
matched to `True`.  The mutation happens on the caller's dictionary. -/
def transform_options (allKeys : List String) (defaultSwitches : List String)
    (options : Options) : Options :=
  let looped := options.foldl
    (fun (st : Options × List String) kv =>
      let compound := get_switch_key kv.1 kv.2.toPyStr
      if allKeys.contains compound then
        (dictPop (dictSet st.1 compound (.vbool true)) kv.1, addToStringSet st.2 kv.1)
      else st)
    (options, [])
  defaultSwitches.foldl
    (fun opts k => if looped.2.contains k then opts else dictSet opts k (.vbool true))
    looped.1

/-- Embedding of `ClassConfigurationUnit.populate_dependency_keys`: the
declared global option order sorts the keys (stably, by index); without it
the insertion order of the configuration dictionary is kept.  A key missing
from a declared order is ordered last (the source would raise `ValueError`
there; no claim exercises that path). -/
def populate_dependency_keys (config : ClassConfigDict)
    (optionOrder : Option (List String)) : List String :=
  match optionOrder with
  | none => config.map Prod.fst
  | some ord =>
    (config.map Prod.fst).mergeSort
      (fun a b => ord.indexOf a ≤ ord.indexOf b)

/-- Global configuration fields consulted by the builders (the
`SimpleNamespace` built from `CLASS_BUILDER_DEFAULT_CONFIG` and overrides). -/
structure GlobalConf where
  default_class : Option ClassId := none
  component_attr : Option String := none
  injection_method : Option String := none
  add_components_after_method : Option Bool := none
  force_add : Option Bool := none
  structured_component_type : Option StructKind := none
  structured_component_key : Option String := none
  init_args_from_option : Option Bool := none
  init_args_keep_first : Option Nat := none
  strict_missing_args : Option Bool := none
  build_recursively : Bool := true
  option_order : Option (List String) := none
  deriving DecidableEq, Repr

/-- Modelled from the spec: `classbuilder/settings.py`
(`CLASS_BUILDER_DEFAULT_CONFIG`) is imported by `dynamic_configuration.py`
but absent from the source tree.  Per the specification, the injection method
defaults to the constructor, strict argument adaptation is the default, and
recursive building is enabled by default. -/
def CLASS_BUILDER_DEFAULT_CONFIG : GlobalConf :=
  { injection_method := some "__init__",
    strict_missing_args := some true,
    build_recursively := true }

/-- Embedding of `ClassConfigurationManager.get_default_class` /
`get_default_global_config` for the `default_class` key: the record's own
value when truthy, else the global default. -/
def get_default_class (globalDefault : Option ClassId)
    (dc : DependencyConfiguration) : Option ClassId :=
  match dc.attrs.default_class with
  | some d => some d
  | none => globalDefault

/-- Embedding of `DependencyConfiguration.set_default_class_config`: fill
every still-unset attribute from the global defaults. -/
def set_default_class_config (dc : DependencyConfiguration) (g : GlobalConf) :
    DependencyConfiguration :=
  { dc with attrs :=
    { dc.attrs with
      default_class := dc.attrs.default_class.orElse (fun _ => g.default_class),
      component_attr := dc.attrs.component_attr.orElse (fun _ => g.component_attr),
      injection_method := dc.attrs.injection_method.orElse (fun _ => g.injection_method),
      add_components_after_method :=
        dc.attrs.add_components_after_method.orElse
          (fun _ => g.add_components_after_method),
      force_add := dc.attrs.force_add.orElse (fun _ => g.force_add),
      structured_component_type :=
        dc.attrs.structured_component_type.orElse
          (fun _ => g.structured_component_type),
      structured_component_key :=
        dc.attrs.structured_component_key.orElse
          (fun _ => g.structured_component_key),
      init_args_from_option :=
        dc.attrs.init_args_from_option.orElse (fun _ => g.init_args_from_option),
      init_args_keep_first :=
        dc.attrs.init_args_keep_first.orElse (fun _ => g.init_args_keep_first),
      strict_missing_args :=
        dc.attrs.strict_missing_args.orElse (fun _ => g.strict_missing_args) } }

/-- Embedding of `ClassBuilder.__is_option_selected` for a string dependency
key: truthiness of the option's value, absent keys being falsy. -/
def is_option_selected (options : Options) (key : String) : Bool :=
  match dictGet options key with
  | some v => v.truthy
  | none => false

/-!
## Fragment Composer (`classbuilder/component_class_builder.py`)

The outer object under construction is modelled with two attribute stores:
`selfAttrs` for plain values read by `init_args_from_self` /
`init_kwargs_from_self`, and `compAttrs` for attached component instances and
structured containers (in Python both live in one `__dict__`; the claims
never overlap them).
-/

inductive InjectionPosition where
  | BEFORE : InjectionPosition
  | MIDDLE : InjectionPosition
  | AFTER : InjectionPosition
  deriving DecidableEq, Repr

/-- A value stored under a component attribute: a bare component instance or
a structured container aggregating several of them. -/
inductive StoredComponent where
  | one : PyInstance → StoredComponent
  | listC : List PyInstance → StoredComponent
  | dictC : List (String × PyInstance) → StoredComponent
  deriving DecidableEq, Repr

/-- Python truthiness of a stored component value (empty containers are
falsy). -/
def storedTruthy : StoredComponent → Bool
  | .one _ => true
  | .listC l => l ≠ []
  | .dictC m => m ≠ []

/-- The empty container created by calling the configured
`structured_component_type`. -/
def emptyContainer : StructKind → StoredComponent
  | .listLike => .listC []
  | .dictLike => .dictC []

structure OuterObj where
  selfAttrs : List (String × PyVal) := []
  compAttrs : List (String × StoredComponent) := []
  deriving DecidableEq, Repr

/-- The per-build state of a `ComponentClassBuilder` visible to the claims:
the `__COMPONENTS_APPLIED` triple set and the object being built. -/
structure CompState where
  applied : List (Option ClassId × String × Option String) := []
  obj : OuterObj := {}
  deriving DecidableEq, Repr

/-- Environment of a component build: the constructor signature of each
class, and the class returned by `__configure_dependent_class` for each
resolved component class (the identity whenever recursion does not apply;
claim C6 settles when it applies). -/
structure ComponentEnv where
  specOf : ClassId → FuncSpec
  resolveDependent : ClassId → ClassId := id

/-- The `(component_class, method, component_attr)` triple recorded in
`__COMPONENTS_APPLIED`. -/
def tripleOf (cfg : DependencyConfiguration) (method : String) :
    Option ClassId × String × Option String :=
  (cfg.attrs.component_class, method, cfg.attrs.component_attr)

/-- Embedding of `ComponentClassBuilder.__is_component_already_applied`. -/
def is_component_already_applied
    (applied : List (Option ClassId × String × Option String))
    (cfg : DependencyConfiguration) (method : String) : Bool :=
  applied.contains (tripleOf cfg method)

/-- Embedding of `__is_the_right_injection_position`.  The
`add_components_after_method` setting is read through `get_global_setting`,
which on a `DependencyConfiguration` always yields the record's own attribute
(the custom `__getattr__` returns `None` instead of raising, so `getattr`'s
global fallback is never taken); `set_default_class_config` has already
merged the global defaults into the record. -/
def is_the_right_injection_position (cfg : DependencyConfiguration)
    (pos : InjectionPosition) : Bool :=
  (pos = InjectionPosition.MIDDLE) ||
    xor (pos = InjectionPosition.BEFORE)
      (pyBoolOpt cfg.attrs.add_components_after_method)

/-- Embedding of `__is_component_to_inject`. -/
def is_component_to_inject (cfg : DependencyConfiguration)
    (pos : InjectionPosition) (method : String)
    (applied : List (Option ClassId × String × Option String)) : Bool :=
  is_the_right_injection_position cfg pos &&
    strTruthy cfg.attrs.injection_method &&
    (cfg.attrs.injection_method = some method) &&
    ! is_component_already_applied applied cfg method

/-- The positional argument list built by `__init_component` before the
adapter call: truncate per `init_args_keep_first` (a truthy count), prepend
the selected option value when `init_args_from_option` is set, and append the
named attributes of the outer object that already exist. -/
def initComponentArgs (cfg : DependencyConfiguration) (args : List PyVal)
    (obj : OuterObj) : List PyVal :=
  let addArgs := args
  let addArgs :=
    match cfg.attrs.init_args_keep_first with
    | some n => if n ≠ 0 then addArgs.take n else addArgs
    | none => addArgs
  let addArgs :=
    if pyBoolOpt cfg.attrs.init_args_from_option then cfg.selected_option :: addArgs
    else addArgs
  addArgs ++ cfg.attrs.init_args_from_self.filterMap (fun n => dictGet obj.selfAttrs n)

/-- The keyword argument dictionary built by `__init_component`: the
`init_kwargs_from_self` entries present on the outer object, merged with (and
overridden by) the outer call's keyword arguments
(`**add_kwargs, **self.__kwargs`). -/
def initComponentKwargs (cfg : DependencyConfiguration)
    (kwargs : List (String × PyVal)) (obj : OuterObj) :
    List (String × PyVal) :=
  let addKwargs := cfg.attrs.init_kwargs_from_self.foldl
    (fun acc kn =>
      match dictGet obj.selfAttrs kn.2 with
      | some v => dictSet acc kn.1 v
      | none => acc)
    []
  kwargs.foldl (fun acc kv => dictSet acc kv.1 kv.2) addKwargs

/-- The component class `__init_component` resolves for instantiation: the
configured class when `must_be_added`, the default class otherwise. -/
def resolvedComponentClass (g : GlobalConf) (cfg : DependencyConfiguration) :
    Option ClassId :=
  if cfg.must_be_added then cfg.attrs.component_class
  else get_default_class g.default_class cfg

/-- Embedding of `ComponentClassBuilder.__init_component`: build the
constructor argument lists, resolve the component class, and invoke it
through the argument adapter with the configured strictness.  Passing a
`None` class to `get_imported_class` raises `DynConfigWrongClassType`. -/
def init_component (env : ComponentEnv) (g : GlobalConf) (args : List PyVal)
    (kwargs : List (String × PyVal)) (obj : OuterObj)
    (cfg : DependencyConfiguration) : Except BuildError (Option PyInstance) :=
  match resolvedComponentClass g cfg with
  | none => .error .dynConfigWrongClassType
  | some c0 =>
    let c := env.resolveDependent c0
    call_obj_with_adapted_args c (env.specOf c) (initComponentArgs cfg args obj)
      (pyBoolOpt cfg.attrs.strict_missing_args)
      (initComponentKwargs cfg kwargs obj)

/-- Embedding of `__init_structured_component` together with
`__add_instance_to_structure`: without a structured type the instance itself
is stored; with one, the current attribute value is reused when truthy (a
fresh empty container is created otherwise) and the instance is added via
`__setitem__` (keyed) or `append`/`add` (unkeyed).  A dict-like container has
neither `append` nor `add`, so the unkeyed path raises
`StructuredTypeError`; calling `__setitem__` on a list with a string key
raises a plain `TypeError`.  A bare instance reached on the keyed path is
handled through `__setattr__`, a mutation the instance model does not track,
so the value is kept unchanged. -/
def init_structured_component (cfg : DependencyConfiguration) (obj : OuterObj)
    (inst : PyInstance) : Except BuildError StoredComponent :=
  match cfg.attrs.structured_component_type with
  | none => .ok (.one inst)
  | some kind =>
    let existing := dictGet obj.compAttrs (strOfOpt cfg.attrs.component_attr)
    let structC :=
      match existing with
      | some s => if storedTruthy s then s else emptyContainer kind
      | none => emptyContainer kind
    match cfg.attrs.structured_component_key with
    | some k =>
      match structC with
      | .dictC m => .ok (.dictC (dictSet m k inst))
      | .listC _ => .error .pyTypeError
      | .one i0 => .ok (.one i0)
    | none =>
      match structC with
      | .listC l => .ok (.listC (l ++ [inst]))
      | .dictC _ => .error .structuredTypeError
      | .one _ => .error .structuredTypeError

/-- Embedding of `ComponentClassBuilder.__add_component`: when the guard
holds and the component instantiates to a truthy instance, attach it under
`component_attr` and record the applied triple; when instantiation yields
`None` (lenient mode), or the guard fails, the state is left untouched. -/
def add_component (env : ComponentEnv) (g : GlobalConf)
    (cfg : DependencyConfiguration) (st : CompState) (method : String)
    (pos : InjectionPosition) (args : List PyVal)
    (kwargs : List (String × PyVal)) : Except BuildError CompState :=
  if is_component_to_inject cfg pos method st.applied then
    match init_component env g args kwargs st.obj cfg with
    | .error e => .error e
    | .ok none => .ok st
    | .ok (some inst) =>
      match init_structured_component cfg st.obj inst with
      | .error e => .error e
      | .ok stored =>
        .ok { applied := tripleOf cfg method :: st.applied,
              obj := { st.obj with
                compAttrs := dictSet st.obj.compAttrs
                  (strOfOpt cfg.attrs.component_attr) stored } }
  else .ok st

/-- Iterated invocation of the guarded method's injection step: each
re-invocation of the guarded method runs `__add_component` again for the same
configuration and method. -/
def addComponentIter (env : ComponentEnv) (g : GlobalConf)
    (cfg : DependencyConfiguration) (method : String) (pos : InjectionPosition)
    (args : List PyVal) (kwargs : List (String × PyVal)) :
    Nat → CompState → Except BuildError CompState
  | 0, st => .ok st
  | n + 1, st =>
    match add_component env g cfg st method pos args kwargs with
    | .error e => .error e
    | .ok st2 => addComponentIter env g cfg method pos args kwargs n st2

/-!
## Dependency preparation (`ClassBuilder.__prepare_class_dependencies`,
`ComponentClassBuilder.select_component_class`)

One configuration unit is modelled (the scope of every claim); the unit's
local configuration has already been merged into the global one by
`set_default_global_config`.
-/

/-- What a build has accumulated before the type-instantiation call: the
parent-class list of the `ParentClassBuilder` and the selected component
configurations (dependency key paired with the prepared record). -/
structure PreparedBuild where
  parents : List ClassId
  components : List (String × DependencyConfiguration) := []
  deriving DecidableEq, Repr

/-- Embedding of `ComponentClassBuilder.select_component_class`: merge the
global defaults into the record, validate the component configuration
(non-empty `component_attr`; `injection_method` must name a method of the
base class, `str(None)` included), then record the dependency for patching. -/
def select_component_class (g : GlobalConf) (baseHasMethod : String → Bool)
    (key : String) (cfg : DependencyConfiguration) (pb : PreparedBuild) :
    Except BuildError PreparedBuild :=
  let cfg := set_default_class_config cfg g
  if ¬ strTruthy cfg.attrs.component_attr then
    .error .classConfigMissingComponentAttr
  else if ¬ baseHasMethod (strOfOpt cfg.attrs.injection_method) then
    .error .classConfigMissingComponentInjectionMethod
  else
    .ok { pb with components := pb.components ++ [(key, cfg)] }

/-- Embedding of `ClassBuilder.__prepare_class_dependency` on one
configuration atom: when the key is selected or a default class exists, an
inheritance record contributes its parent classes (the default class when
unselected) and a component record is handed to the component builder; a
record with neither field raises the fallback `ClassConfigMissingDependency`.
A still-unexpanded switch table would be accessed as an attribute holder and
raises `AttributeError`. -/
def prepare_class_dependency (g : GlobalConf) (baseHasMethod : String → Bool)
    (key : String) (selected : Bool) (a : ConfigAtom) (pb : PreparedBuild) :
    Except BuildError PreparedBuild :=
  match a with
  | .sw _ => .error .pyAttributeError
  | .dep dc =>
    let defaultClass := get_default_class g.default_class dc
    if selected || defaultClass.isSome then
      if inheritFromTruthy dc.attrs.inherit_from then
        let parentRef :=
          if selected then dc.attrs.inherit_from.getD (.single objectClassId)
          else .single (defaultClass.getD objectClassId)
        .ok { pb with parents := select_parent_classes pb.parents parentRef }
      else if dc.attrs.component_class.isSome then
        select_component_class g baseHasMethod key
          { dc with is_option_selected := some selected } pb
      else
        .error .classConfigMissingDependency
    else
      .ok pb

/-- Embedding of `ClassBuilder.__prepare_class_dependencies` for one
configuration unit: walk the dependency keys in their populated order,
evaluate each key against the options once, and prepare every record listed
under the key (a key absent from the `defaultdict` yields the empty list). -/
def prepare_class_dependencies (g : GlobalConf) (baseHasMethod : String → Bool)
    (base : ClassId) (baseBases : List ClassId) (config : ClassConfigDict)
    (options : Options) : Except BuildError PreparedBuild :=
  let keys := populate_dependency_keys config g.option_order
  keys.foldlM
    (fun pb key =>
      let selected := is_option_selected options key
      let atoms :=
        match dictGet config key with
        | some node => tuplefyNode node
        | none => []
      atoms.foldlM (fun acc a => prepare_class_dependency g baseHasMethod key selected a acc) pb)
    { parents := parentClassBuilderInit base baseBases, components := [] }

/-- Registration-time half of the pipeline: switch expansion of the raw
configuration (performed once by `ClassConfigurationManager.__init__`). -/
def register_configuration (rawConfig : ClassConfigDict) :
    ClassConfigDict × List String :=
  transform_switches rawConfig []

/-- Build-time pipeline for one registered configuration, as run by
`build_configured_class`: expand the supplied options against the transformed
configuration, then prepare all dependencies.  Returns the prepared build
together with the options dictionary as it stands after the in-place
expansion. -/
def build_prepared (g : GlobalConf) (baseHasMethod : String → Bool)
    (base : ClassId) (baseBases : List ClassId) (rawConfig : ClassConfigDict)
    (options : Options) : Except BuildError (PreparedBuild × Options) :=
  let reg := register_configuration rawConfig
  let opts := transform_options (reg.1.map Prod.fst) reg.2 options
  (prepare_class_dependencies g baseHasMethod base baseBases reg.1 opts).map
    (fun pb => (pb, opts))

/-!
## Orchestrator registry (`classbuilder/dynamic_configuration.py`)

`build_class` records the supplied options in `__CLASS_OPTION_MAP` under
`base_class.__name__`; the composite produced by `type(...)` carries that
same `__name__`.  `buildcomponent` reads the caller's `self.__class__.__name__`
from the stack frame and looks it up in the map.
-/

structure EngineRegistry where
  classOptionMap : List (String × Options) := []
  deriving DecidableEq, Repr

/-- The `__name__` of the composite built from a base class equals the base
class's name, because `configure_class` calls the type-instantiation
primitive with `self.__base_class.__name__`. -/
def composite_class_name (className : ClassId → String) (base : ClassId) :
    String :=
  className base

/-- Embedding of the registry effect of `DynamicConfiguration.build_class`:
the supplied options are recorded under the base class's name, overwriting
any previous entry for that name. -/
def build_class_record (className : ClassId → String) (st : EngineRegistry)
    (base : ClassId) (options : Options) : EngineRegistry :=
  { classOptionMap := dictSet st.classOptionMap (className base) options }

/-- Result of `DynamicConfiguration.buildcomponent`. -/
inductive BuildComponentResult where
  | unchangedBase : ClassId → BuildComponentResult
  | rebuiltWith : ClassId → Options → BuildComponentResult
  deriving DecidableEq, Repr

/-- Embedding of `DynamicConfiguration.buildcomponent`: look up the enclosing
instance's class name in `__CLASS_OPTION_MAP`; on a hit, re-invoke
`build_class` on the given base with the recorded options, and on `KeyError`
return the base class unmodified. -/
def buildcomponent (st : EngineRegistry) (enclosingClassName : String)
    (base : ClassId) : BuildComponentResult :=
  match dictGet st.classOptionMap enclosingClassName with
  | none => .unchangedBase base
  | some opts => .rebuiltWith base opts

/-!
## Shared helper lemmas
-/

theorem dictGet_dictSet_self {α : Type} (d : List (String × α)) (k : String)
    (v : α) : dictGet (dictSet d k v) k = some v := by
  induction d with
  | nil => simp [dictSet, dictGet]
  | cons kv rest ih =>
    by_cases h : kv.1 = k <;> simp [dictSet, dictGet, h, ih]

theorem find?_append_of_forall_false {p : ClassId → Bool} (l rest : List ClassId)
    (h : ∀ c ∈ l, p c = false) :
    List.find? p (l ++ rest) = List.find? p rest := by
  induction l with
  | nil => simp
  | cons c cs ih =>
    have hc : p c = false := h c (by simp)
    simp only [List.cons_append, List.find?]
    rw [hc]
    exact ih (fun x hx => h x (by simp [hx]))

/-!
## Claim theorems
-/

/-- Claim C7: the argument adapter fills the target's positional parameters
from keyword arguments of matching name (removing them from the keyword
dictionary) and from the remaining positional arguments in order; a target
declaring unbounded positional parameters receives all positional arguments
unfiltered; keyword-only parameters (those with defaults, the only keyword
slots the adapter can fill) are taken only from keyword arguments of
matching name, except that a target accepting unbounded keywords receives
all remaining keyword arguments. -/
theorem adapt_arguments_follows_claim (f : FuncSpec) (args : List PyVal)
    (kwargs : List (String × PyVal)) :
    adapt_arguments f args kwargs =
      ((if f.varargs then args else claimFill (f.args.drop 1) kwargs args),
       (let rem :=
          if f.varargs then kwargs else claimRemaining (f.args.drop 1) kwargs args
        if f.varkw then rem
        else rem.filter (fun kv => f.kwonlydefaults.contains kv.1))) := by
  unfold adapt_arguments
  by_cases hv : f.varargs <;> by_cases hk : f.varkw <;>
    simp [hv, hk, adaptPositionalLoop_eq]

/-- Claim C6: a dependent class resolved during a build is recursively built
with the same options exactly when recursive building is enabled, the class
is registered, it is not the base class being built, and it has not already
been built; in every other case it is returned unchanged. -/
theorem recursive_build_condition (env : BuildEnv) (base : ClassId)
    (options : Options) (c : ClassId) :
    (configure_dependent_class env base options c = .recursiveBuild c options ↔
      (env.buildRecursively = true ∧ env.configMapKeys.contains c = true ∧
        c ≠ base ∧ env.classesBuilt.contains c = false))
    ∧ (configure_dependent_class env base options c = .recursiveBuild c options ∨
       configure_dependent_class env base options c = .unchanged c) := by
  unfold configure_dependent_class
  split
  next hcond =>
    refine ⟨⟨fun h => absurd h (by simp), ?_⟩, Or.inr rfl⟩
    rintro ⟨h1, h2, h3, h4⟩
    rcases hcond with h | h | h
    · exact (h (by simp [h1])).elim
    · exact (h3 h).elim
    · rw [is_already_built, h2, h4] at h
      simp at h
  next hcond =>
    have h1 : env.buildRecursively = true := by
      cases hb : env.buildRecursively
      · exact absurd (Or.inl (by simp [hb])) hcond
      · rfl
    have h2 : c ≠ base := fun he => hcond (Or.inr (Or.inl he))
    have h3 : is_already_built env c = false := by
      cases hb : is_already_built env c
      · rfl
      · exact absurd (Or.inr (Or.inr (by simp [hb]))) hcond
    rw [is_already_built, Bool.or_eq_false_iff] at h3
    obtain ⟨h4, h5⟩ := h3
    have h5b : env.configMapKeys.contains c = true := by
      revert h5
      cases env.configMapKeys.contains c <;> simp
    exact ⟨⟨fun _ => ⟨h1, h5b, h2, h4⟩, fun _ => rfl⟩, Or.inl rfl⟩

/-- Claim C6 witness: with recursion enabled, class 2 registered and not yet
built, configuring dependent class 2 under base class 1 recursively builds it
with the same options. -/
theorem recursive_build_condition_witness :
    configure_dependent_class ⟨true, [2], []⟩ 1 [("o", .vbool true)] 2 =
      .recursiveBuild 2 [("o", .vbool true)] :=
  (recursive_build_condition ⟨true, [2], []⟩ 1 [("o", .vbool true)] 2).1.mpr
    ⟨rfl, by decide, by decide, by decide⟩

/-- Claim C8: constructing a dependency record whose configuration sets
neither `inherit_from` nor `component_class` fails with
`ClassConfigMissingDependency`, and one setting both fails with
`ClassConfigDependencyOverflow`; validation runs first in the constructor,
so the error is raised eagerly at configuration time. -/
theorem class_config_validation_errors (cfg : ClassConfig) :
    (inheritFromTruthy cfg.inherit_from = false → cfg.component_class = none →
      mkDependencyConfiguration cfg = .error .classConfigMissingDependency)
    ∧ (inheritFromTruthy cfg.inherit_from = true → cfg.component_class ≠ none →
      mkDependencyConfiguration cfg = .error .classConfigDependencyOverflow) := by
  constructor
  · intro h1 h2
    simp [mkDependencyConfiguration, validate_class_config, h1, h2, Bind.bind,
      Except.bind]
  · intro h1 h2
    simp [mkDependencyConfiguration, validate_class_config, h1, h2, Bind.bind,
      Except.bind]

/-- Claim C8 witness: the empty configuration raises the missing-kind error
and a configuration with both a supertype and a fragment raises the
conflicting-kind error. -/
theorem class_config_validation_errors_witness :
    mkDependencyConfiguration {} = .error .classConfigMissingDependency
    ∧ mkDependencyConfiguration
        { inherit_from := some (.single 3), component_class := some 4 } =
      .error .classConfigDependencyOverflow :=
  ⟨(class_config_validation_errors {}).1 (by decide) (by decide),
   (class_config_validation_errors
      { inherit_from := some (.single 3), component_class := some 4 }).2
     (by decide) (by decide)⟩

theorem is_component_to_inject_false_of_applied
    {applied : List (Option ClassId × String × Option String)}
    {cfg : DependencyConfiguration} {method : String} (pos : InjectionPosition)
    (h : is_component_already_applied applied cfg method = true) :
    is_component_to_inject cfg pos method applied = false := by
  simp [is_component_to_inject, h]

theorem add_component_noop_of_applied (env : ComponentEnv) (g : GlobalConf)
    (cfg : DependencyConfiguration) (st : CompState) (method : String)
    (pos : InjectionPosition) (args : List PyVal)
    (kwargs : List (String × PyVal))
    (h : is_component_already_applied st.applied cfg method = true) :
    add_component env g cfg st method pos args kwargs = .ok st := by
  unfold add_component
  rw [is_component_to_inject_false_of_applied pos h]
  simp

/-- Claim C2: once the `(fragment class, method, attribute)` triple of a
component configuration has been recorded as applied, re-running the guarded
injection step any number of times leaves the build state untouched (no
re-instantiation, no re-attachment); and whenever an injection step changes
the state at all, it records that triple, making the transition terminal for
the build. -/
theorem component_injected_at_most_once (env : ComponentEnv) (g : GlobalConf)
    (cfg : DependencyConfiguration) (method : String)
    (pos pos2 : InjectionPosition) (args : List PyVal)
    (kwargs : List (String × PyVal)) (n : Nat) (st : CompState) :
    (is_component_already_applied st.applied cfg method = true →
      addComponentIter env g cfg method pos args kwargs n st = .ok st)
    ∧ (∀ st2, add_component env g cfg st method pos2 args kwargs = .ok st2 →
        st2 ≠ st → is_component_already_applied st2.applied cfg method = true) := by
  constructor
  · intro h
    induction n with
    | zero => rfl
    | succ m ih =>
      unfold addComponentIter
      rw [add_component_noop_of_applied env g cfg st method pos args kwargs h]
      exact ih
  · intro st2 hadd hne
    unfold add_component at hadd
    split at hadd
    · split at hadd
      · exact absurd hadd (by simp)
      · simp at hadd
        exact absurd hadd.symm hne
      · split at hadd
        · exact absurd hadd (by simp)
        · simp at hadd
          rw [← hadd]
          simp [is_component_already_applied, List.contains_cons]
    · simp at hadd
      exact absurd hadd.symm hne

/-- Concrete component configuration for the claim C2 and C3 witnesses:
fragment class 7 attached under attribute `comp` at the constructor. -/
def cfgW : DependencyConfiguration :=
  { attrs := { component_attr := some "comp", injection_method := some "__init__",
               component_class := some 7 },
    must_be_added := true }

/-- Component environment for the witnesses: class 7 takes no constructor
arguments besides `self`, class 8 requires two. -/
def envW : ComponentEnv :=
  { specOf := fun c =>
      if c = 8 then { args := ["self", "a", "b"] } else { args := ["self"] },
    resolveDependent := id }

/-- The build state after the witness injection of fragment class 7. -/
def stW : CompState :=
  { applied := [(some 7, "__init__", some "comp")],
    obj := { selfAttrs := [], compAttrs := [("comp", .one ⟨7, [], []⟩)] } }

/-- Claim C2 witness: the witness injection transitions the empty state to
`stW`, which records the triple, and five further invocations of the guarded
step leave `stW` unchanged. -/
theorem component_injected_at_most_once_witness :
    is_component_already_applied stW.applied cfgW "__init__" = true
    ∧ addComponentIter envW {} cfgW "__init__" .BEFORE [] [] 5 stW = .ok stW :=
  ⟨(component_injected_at_most_once envW {} cfgW "__init__" .BEFORE .BEFORE
      [] [] 5 ({} : CompState)).2 stW (by rfl) (by decide),
   (component_injected_at_most_once envW {} cfgW "__init__" .BEFORE .BEFORE
      [] [] 5 stW).1 (by rfl)⟩

/-- Claim C3: when the injection guard holds but the resolved fragment
class's constructor requires more positional arguments than the adapted
argument list supplies, lenient mode (`strict_missing_args` falsy) silently
omits the fragment — the state is returned unchanged, with no attribute set
and no applied-triple transition and no error — while strict mode propagates
the missing-positional-argument error to the caller. -/
theorem lenient_strict_missing_args (env : ComponentEnv) (g : GlobalConf)
    (cfg : DependencyConfiguration) (st : CompState) (method : String)
    (pos : InjectionPosition) (args : List PyVal)
    (kwargs : List (String × PyVal)) (c0 : ClassId)
    (hinj : is_component_to_inject cfg pos method st.applied = true)
    (hres : resolvedComponentClass g cfg = some c0)
    (hmiss :
      ((adapt_arguments (env.specOf (env.resolveDependent c0))
          (initComponentArgs cfg args st.obj)
          (initComponentKwargs cfg kwargs st.obj)).1).length <
        requiredPositional (env.specOf (env.resolveDependent c0))) :
    (pyBoolOpt cfg.attrs.strict_missing_args = false →
      add_component env g cfg st method pos args kwargs = .ok st)
    ∧ (pyBoolOpt cfg.attrs.strict_missing_args = true →
      add_component env g cfg st method pos args kwargs =
        .error .missingPositionalArgs) := by
  have hcall : init_component env g args kwargs st.obj cfg =
      (if pyBoolOpt cfg.attrs.strict_missing_args then
        .error .missingPositionalArgs else .ok none) := by
    unfold init_component
    rw [hres]
    unfold call_obj_with_adapted_args invokeConstructor
    simp only [if_pos hmiss]
  constructor
  · intro hstrict
    unfold add_component
    rw [hinj, hcall, hstrict]
    simp
  · intro hstrict
    unfold add_component
    rw [hinj, hcall, hstrict]
    simp

/-- Strict variant of the witness configuration for claim C3: fragment
class 8 (two required constructor arguments) with strict mode enabled. -/
def cfgWStrict : DependencyConfiguration :=
  { attrs := { component_attr := some "comp", injection_method := some "__init__",
               component_class := some 8, strict_missing_args := some true },
    must_be_added := true }

/-- Lenient variant of the witness configuration for claim C3. -/
def cfgWLenient : DependencyConfiguration :=
  { attrs := { component_attr := some "comp", injection_method := some "__init__",
               component_class := some 8, strict_missing_args := some false },
    must_be_added := true }

/-- Claim C3 witness: fragment class 8 requires two positional constructor
arguments and the build supplies one; with `strict_missing_args` false the
step returns the state unchanged, with it true the step propagates the
missing-positional-argument error. -/
theorem lenient_strict_missing_args_witness :
    add_component envW {} cfgWLenient ({} : CompState) "__init__" .BEFORE
      [.vnat 5] [] = .ok ({} : CompState)
    ∧ add_component envW {} cfgWStrict ({} : CompState) "__init__" .BEFORE
      [.vnat 5] [] = .error .missingPositionalArgs :=
  ⟨(lenient_strict_missing_args envW {} cfgWLenient ({} : CompState) "__init__"
      .BEFORE [.vnat 5] [] 8 (by rfl) (by rfl) (by decide)).1 (by rfl),
   (lenient_strict_missing_args envW {} cfgWStrict ({} : CompState) "__init__"
      .BEFORE [.vnat 5] [] 8 (by rfl) (by rfl) (by decide)).2 (by rfl)⟩

/-- A build environment with nothing registered, under which every dependent
class resolves to itself (recursion never applies). -/
def envNoReg : BuildEnv := { buildRecursively := true }

/-- Claim C1 counterexample: with base class 1 and supertype-kind keys K1
(class 2, evaluated first) and K2 (class 3, evaluated second) both selected,
the tuple handed to the type-instantiation primitive is
`(base, K1's class, K2's class)` — it is not the reversal of that order, and
on a name conflict the attribute resolves to K1's class 2, not K2's
class 3. -/
theorem parent_tuple_reversal_counterexample :
    configuredParentTuple envNoReg 1 [] [] [.single 2, .single 3] =
      [.unchanged 1, .unchanged 2, .unchanged 3]
    ∧ configuredParentTuple envNoReg 1 [] [] [.single 2, .single 3] ≠
      List.reverse [DependentResult.unchanged 1, .unchanged 2, .unchanged 3]
    ∧ mroFirstDefiner (fun c attr => (c = 2 || c = 3) && attr = "m")
        ((configuredParentTuple envNoReg 1 [] [] [.single 2, .single 3]).map
          DependentResult.sourceClass) "m" = some 2
    ∧ mroFirstDefiner (fun c attr => (c = 2 || c = 3) && attr = "m")
        ((configuredParentTuple envNoReg 1 [] [] [.single 2, .single 3]).map
          DependentResult.sourceClass) "m" ≠ some 3 := by
  decide

/-- Claim C1 (amended): the supertype tuple handed to the
type-instantiation primitive is the base class first, then the base's
statically declared supertypes, then the dynamically selected supertypes in
evaluation order, with no reversal; consequently, when two selected
supertype-kind keys K1 (evaluated first) and K2 both provide an attribute
that neither the base nor its static supertypes define, the attribute
resolves to K1's class (first-selected wins). -/
theorem parent_tuple_order_and_precedence (env : BuildEnv) (base : ClassId)
    (options : Options) (staticBases : List ClassId) (dynRefs : List ParentRef)
    (defines : ClassId → String → Bool) (attr : String) (k1c k2c : ClassId)
    (hdyn : flattenRefs dynRefs = [k1c, k2c])
    (hbase : defines base attr = false)
    (hstatic : ∀ c ∈ (if staticBases = [objectClassId] then ([] : List ClassId)
        else staticBases), defines c attr = false)
    (hk1 : defines k1c attr = true) :
    (configuredParentTuple env base options staticBases dynRefs).map
        DependentResult.sourceClass =
      base :: ((if staticBases = [objectClassId] then ([] : List ClassId)
        else staticBases) ++ [k1c, k2c])
    ∧ mroFirstDefiner defines
        ((configuredParentTuple env base options staticBases dynRefs).map
          DependentResult.sourceClass) attr = some k1c := by
  have horder : (configuredParentTuple env base options staticBases dynRefs).map
      DependentResult.sourceClass =
      base :: ((if staticBases = [objectClassId] then ([] : List ClassId)
        else staticBases) ++ [k1c, k2c]) := by
    rw [configuredParentTuple_sourceClasses, parentClassBuilderInit, hdyn]
    simp
  refine ⟨horder, ?_⟩
  rw [horder]
  unfold mroFirstDefiner
  have hcons : List.find? (fun c => defines c attr)
      (base :: ((if staticBases = [objectClassId] then ([] : List ClassId)
        else staticBases) ++ [k1c, k2c])) =
      List.find? (fun c => defines c attr)
        ((if staticBases = [objectClassId] then ([] : List ClassId)
          else staticBases) ++ [k1c, k2c]) := by
    simp [List.find?, hbase]
  rw [hcons, find?_append_of_forall_false _ _ hstatic]
  simp [List.find?, hk1]

/-- Claim C1 (amended) witness: base 1 with no static supertypes, K1
selecting class 2 and K2 selecting class 3, attribute `m` defined by
classes 2 and 3 only: the tuple is `(1, 2, 3)` and `m` resolves to class 2. -/
theorem parent_tuple_order_and_precedence_witness :
    (configuredParentTuple envNoReg 1 [] [] [.single 2, .single 3]).map
        DependentResult.sourceClass = [1, 2, 3]
    ∧ mroFirstDefiner (fun c attr => (c = 2 || c = 3) && attr = "m")
        ((configuredParentTuple envNoReg 1 [] [] [.single 2, .single 3]).map
          DependentResult.sourceClass) "m" = some 2 :=
  parent_tuple_order_and_precedence envNoReg 1 [] [] [.single 2, .single 3]
    (fun c attr => (c = 2 || c = 3) && attr = "m") "m" 2 3
    (by decide) (by decide) (by decide) (by decide)

/-- An inheritance-kind dependency record selecting one supertype. -/
def inheritCfg (a : ClassId) : DependencyConfiguration :=
  { attrs := { inherit_from := some (.single a) } }

/-- The switch configuration of claim C4: cases `X` and `Y` plus a recorded
default, each selecting one supertype. -/
def switchExampleConfig (a1 a2 a3 : ClassId) : ClassConfigDict :=
  [("selector", .switchTable
    [("X", inheritCfg a1), ("Y", inheritCfg a2),
     (SWITCH_DEFAULT, inheritCfg a3)])]

/-- Claim C4: building against a switch dependency with cases
`{X: cfg1, Y: cfg2, DEFAULT: cfg3}` applies cfg1's effect when the switch
option is `X`, the default cfg3's effect when the option carries the
unlisted value `Z`, and cfg3's effect again when the option is omitted
entirely. -/
theorem switch_dependency_cases (base a1 a2 a3 : ClassId) :
    build_prepared {} (fun _ => true) base [] (switchExampleConfig a1 a2 a3)
        [("selector", .vstr "X")] =
      .ok ({ parents := [base, a1], components := [] },
           [("selector_#=_X", .vbool true)])
    ∧ build_prepared {} (fun _ => true) base [] (switchExampleConfig a1 a2 a3)
        [("selector", .vstr "Z")] =
      .ok ({ parents := [base, a3], components := [] },
           [("selector", .vbool true)])
    ∧ build_prepared {} (fun _ => true) base [] (switchExampleConfig a1 a2 a3)
        [] =
      .ok ({ parents := [base, a3], components := [] },
           [("selector", .vbool true)]) := by
  refine ⟨?_, ?_, ?_⟩ <;> rfl

/-- Claim C5 counterexample: building base 1 against a registered switch
configuration with the caller's options `{selector: "X"}` leaves the
caller's mapping holding `{selector_#=_X: True}` — the switch expansion is
applied to the caller's dictionary itself, so after the build it no longer
holds the entries it held before. -/
theorem caller_options_mutated_counterexample :
    build_prepared {} (fun _ => true) 1 [] (switchExampleConfig 11 12 13)
        [("selector", .vstr "X")] =
      .ok ({ parents := [1, 11], components := [] },
           [("selector_#=_X", .vbool true)])
    ∧ ([("selector_#=_X", PyVal.vbool true)] : Options) ≠
      [("selector", PyVal.vstr "X")] :=
  ⟨by rfl, by decide⟩

/-- Claim C5 (amended): the engine mutates the caller's options mapping in
place — switch expansion rewrites matched entries to compound boolean keys
and sets unmatched default switches — and whenever no supplied option
matches a switch case of the registered configuration and the configuration
records no default switch, the mapping still holds exactly the entries it
held before the call. -/
theorem caller_options_unchanged_without_switches (allKeys : List String)
    (defaultSwitches : List String) (options : Options)
    (hmatch : ∀ kv ∈ options,
      allKeys.contains (get_switch_key kv.1 kv.2.toPyStr) = false)
    (hdef : defaultSwitches = []) :
    transform_options allKeys defaultSwitches options = options := by
  subst hdef
  unfold transform_options
  have hfold : ∀ (l : List (String × PyVal)) (st : Options × List String),
      (∀ kv ∈ l, allKeys.contains (get_switch_key kv.1 kv.2.toPyStr) = false) →
      l.foldl
        (fun (st : Options × List String) kv =>
          let compound := get_switch_key kv.1 kv.2.toPyStr
          if allKeys.contains compound then
            (dictPop (dictSet st.1 compound (.vbool true)) kv.1,
             addToStringSet st.2 kv.1)
          else st) st = st := by
    intro l
    induction l with
    | nil => intro st _; rfl
    | cons kv rest ih =>
      intro st hl
      have hkv := hl kv (by simp)
      simp only [List.foldl]
      rw [if_neg (fun hc => by rw [hkv] at hc; exact Bool.noConfusion hc)]
      exact ih st (fun x hx => hl x (by simp [hx]))
  rw [hfold options (options, []) hmatch]
  rfl

/-- Claim C5 (amended) witness: with a registered configuration whose only
compound switch key is `x_#=_1` and no default switches, the caller's
mapping `{y: "a"}` is unchanged by the build's option expansion. -/
theorem caller_options_unchanged_without_switches_witness :
    transform_options ["x_#=_1"] [] [("y", .vstr "a")] = [("y", .vstr "a")] :=
  caller_options_unchanged_without_switches ["x_#=_1"] [] [("y", .vstr "a")]
    (by decide) rfl

/-- Every registered class in the claimed C9/C10 scenarios is named `Base`
(two distinct base types sharing one class name). -/
def nameAll : ClassId → String := fun _ => "Base"

/-- Claim C9 counterexample: base type 1 is built with options
`{optA: True}`, then base type 2 — whose class bears the same name — is
built with `{optB: True}`.  A nested-component build invoked from inside an
instance of base 1's composite (class name `Base`) rebuilds the given base
with `{optB: True}`, not with the `{optA: True}` that built the enclosing
instance. -/
theorem buildcomponent_name_collision_counterexample :
    buildcomponent
        (build_class_record nameAll
          (build_class_record nameAll {} 1 [("optA", .vbool true)])
          2 [("optB", .vbool true)])
        (composite_class_name nameAll 1) 5 =
      .rebuiltWith 5 [("optB", .vbool true)]
    ∧ ([("optB", PyVal.vbool true)] : Options) ≠ [("optA", PyVal.vbool true)] := by
  decide

/-- Claim C9 (amended): the nested-component build keys its lookup on the
enclosing instance's class name: immediately after a build of a base type
records its options, a nested-component build invoked from a class of that
name rebuilds the given base with the most recently recorded options for
the name; and when no engine build has recorded options under the enclosing
class's name, the base type is returned unmodified. -/
theorem buildcomponent_by_name (className : ClassId → String)
    (st : EngineRegistry) (base target : ClassId) (options : Options)
    (n : String) (hmiss : dictGet st.classOptionMap n = none) :
    buildcomponent (build_class_record className st base options)
        (composite_class_name className base) target =
      .rebuiltWith target options
    ∧ buildcomponent st n target = .unchangedBase target := by
  constructor
  · unfold buildcomponent build_class_record composite_class_name
    rw [dictGet_dictSet_self]
  · unfold buildcomponent
    rw [hmiss]

/-- Claim C9 (amended) witness: after recording a build of base 1 under name
`Base`, a nested-component build from a `Base` instance rebuilds target 5
with the recorded options, and from a class name never built by the engine
the target is returned unmodified. -/
theorem buildcomponent_by_name_witness :
    buildcomponent (build_class_record nameAll {} 1 [("optA", .vbool true)])
        (composite_class_name nameAll 1) 5 =
      .rebuiltWith 5 [("optA", .vbool true)]
    ∧ buildcomponent ({} : EngineRegistry) "Other" 5 = .unchangedBase 5 :=
  buildcomponent_by_name nameAll {} 1 5 [("optA", .vbool true)] "Other"
    (by decide)

/-- Claim C10: the option set consulted by the nested-component build is
recorded and looked up by the base class's name: when two base types share
one class name, successive builds overwrite the single recorded option set
for that name, and a nested-component build invoked from an instance of the
first type's composite uses the options most recently recorded for the
name — those of the second build. -/
theorem option_map_keyed_by_name (className : ClassId → String)
    (st : EngineRegistry) (b1 b2 target : ClassId) (o1 o2 : Options)
    (hname : className b1 = className b2) :
    buildcomponent
        (build_class_record className (build_class_record className st b1 o1)
          b2 o2)
        (composite_class_name className b1) target =
      .rebuiltWith target o2 := by
  unfold buildcomponent build_class_record composite_class_name
  rw [hname, dictGet_dictSet_self]

/-- Claim C10 witness: base types 1 and 2 both named `Base`; building 1 with
`{optA: True}` and then 2 with `{optB: True}` makes a nested-component build
from an instance of type 1's composite use `{optB: True}`. -/
theorem option_map_keyed_by_name_witness :
    buildcomponent
        (build_class_record nameAll
          (build_class_record nameAll {} 1 [("optA", .vbool true)])
          2 [("optB", .vbool true)])
        (composite_class_name nameAll 1) 5 =
      .rebuiltWith 5 [("optB", .vbool true)] :=
  option_map_keyed_by_name nameAll {} 1 2 5 [("optA", .vbool true)]
    [("optB", .vbool true)] rfl

end DynDesign
